import Mathlib

/-!
Shallow embedding of the context-assembly and memory-retrieval pipeline of
`app/agent.py` (a retrieval-augmented DevOps assistant), together with proofs
of its specified properties.

External collaborators (the Chroma vector store, the sentence-transformer
embedder, the `requests` HTTP client, `hashlib.md5`, `json.loads`) are
modelled as an explicit environment `Env` of black-box functions; fallible
calls return `Except String`, and a Python exception that the code does not
catch shows up as an `Except.error` result of the embedded function.
Everything written in `agent.py` itself is translated directly:
record-identity derivation, upsert semantics, the per-user `where` filter on
recall, document formatting, the rephrase short-circuit, the context builder,
the streaming-generation error paths, and one turn of the main loop.
-/

set_option autoImplicit false

namespace DevopsAgent

/-- Helper for `pySplit`, by structural recursion on the character list so
that it reduces in the kernel.  `acc` holds the characters of the current
token, reversed. -/
def pyWordsAux : List Char → List Char → List String
  | [], [] => []
  | [], acc => [⟨acc.reverse⟩]
  | c :: rest, acc =>
    if c.isWhitespace then
      match acc with
      | [] => pyWordsAux rest []
      | _ => (⟨acc.reverse⟩ : String) :: pyWordsAux rest []
    else pyWordsAux rest (c :: acc)

/-- Python `prompt.split()`: whitespace-delimited tokens, no empty tokens. -/
def pySplit (s : String) : List String := pyWordsAux s.data []

/-- Python `str.strip()`: drop leading and trailing whitespace. -/
def pyStrip (s : String) : String :=
  ⟨((s.data.dropWhile Char.isWhitespace).reverse.dropWhile Char.isWhitespace).reverse⟩

/-- Python string slicing `s[:n]` (by characters). -/
def pyTake (s : String) (n : Nat) : String := ⟨s.data.take n⟩

/-- Python list indexing `xs[i]`, raising `IndexError` when out of range. -/
def pyIndex {α : Type} (xs : List α) (i : Nat) : Except String α :=
  match xs.get? i with
  | some x => Except.ok x
  | none => Except.error "IndexError: list index out of range"

/-- A Python dict with string keys and string values. -/
def DocMeta : Type := List (String × String)

/-- Python `d.get(key, default)` on a string dict. -/
def dictGet (d : DocMeta) (key dflt : String) : String :=
  match List.find? (fun kv => kv.1 == key) d with
  | some kv => kv.2
  | none => dflt

-- -----------------------------
-- CONFIGURATION (agent.py)
-- -----------------------------

def MODEL_NAME : String := "llama3"
def MAX_CONTEXT_DOCS : Nat := 5
def MEMORY_SIZE : Nat := 3
def USER_ID : String := "onkar"

-- -----------------------------
-- DATA MODEL
-- -----------------------------

/-- Metadata attached to a memory record by `add_memory`. -/
structure Metadata where
  user_id : String
  role : String
  timestamp : String
  deriving DecidableEq, Repr

/-- One logical record of the Chroma memory collection. -/
structure MemRecord where
  id : String
  document : String
  embedding : List Int
  metadata : Metadata
  deriving DecidableEq, Repr

/-- Result of a Chroma query on the static collection, as the dict that
`search_docs` reads: the `documents` key may be missing (`KeyError`), and
the `metadatas` key is read with `.get("metadatas", [[]])`. -/
structure StaticQueryResult where
  documents : Option (List (List String))
  metadatas : Option (List (List DocMeta))

/-- Result of a non-streaming `requests.post` (used by `rephrase_query`):
`ok` is `res.ok` (status below 400), `responseField` models the fallible
chain `res.json()["response"]`. -/
structure PostResult where
  ok : Bool
  responseField : Except String String

/-- Result of a streaming `requests.post` (used by `query_ollama`). -/
structure StreamResponse where
  status_code : Nat
  lines : List String

/-- The JSON payload `query_ollama` sends.  The constant `options` dict is
omitted: it carries no information relevant to any property. -/
structure OllamaPayload where
  model : String
  prompt : String
  stream : Bool
  deriving DecidableEq

/-- The external collaborators of `agent.py`, as black-box functions.
`memSelect` is the Chroma nearest-neighbour selection run over the candidate
pool that already satisfies the `where` clause; `memSelect_sub` is the Chroma
contract that query results come from the queried candidate pool. -/
structure Env where
  /-- Models `hashlib.md5(text.encode("utf-8")).hexdigest()`: an arbitrary
  deterministic string-valued digest. -/
  md5Hex : String → String
  /-- Models `embedder.encode([text])[0].tolist()`; failure propagates. -/
  encode : String → Except String (List Int)
  /-- Models the Chroma nearest-neighbour selection among the records
  matching the `where` filter. -/
  memSelect : List MemRecord → String → Nat → Except String (List MemRecord)
  memSelect_sub : ∀ pool q n hits, memSelect pool q n = Except.ok hits →
    ∀ r ∈ hits, r ∈ pool
  /-- Models `static_collection.query(query_texts=[q], n_results=n)`. -/
  staticQuery : String → Nat → Except String StaticQueryResult
  /-- Models the non-streaming `requests.post(OLLAMA_API, json=...)` issued
  by `rephrase_query`, as a function of the prompt sent. -/
  post : String → Except String PostResult
  /-- Models the streaming `requests.post(OLLAMA_API, json=payload,
  stream=True)` issued by `query_ollama`. -/
  postStream : OllamaPayload → Except String StreamResponse
  /-- Models `json.loads(line)` restricted to the string-valued fields the
  code reads; `none` models `json.JSONDecodeError`. -/
  jsonLoads : String → Option DocMeta

-- -----------------------------
-- HELPERS (agent.py)
-- -----------------------------

/-- Source `hash_text(text)`: `hashlib.md5(text.encode("utf-8")).hexdigest()`. -/
def hash_text (env : Env) (text : String) : String := env.md5Hex text

-- -----------------------------
-- MEMORY HANDLING (agent.py)
-- -----------------------------

/-- Chroma `upsert` keyed by `id`: overwrite the record with a matching id
when one exists, append otherwise. -/
def upsert (store : List MemRecord) (r : MemRecord) : List MemRecord :=
  if store.any (fun s => s.id == r.id) then
    store.map (fun s => if s.id == r.id then r else s)
  else store ++ [r]

/-- The memory id `f"{user_id}_{role}_{hash_text(text)[:8]}"`. -/
def memId (env : Env) (user_id role text : String) : String :=
  user_id ++ "_" ++ role ++ "_" ++ pyTake (hash_text env text) 8

/-- Source `add_memory(user_id, text, role)`: embed, derive the id, upsert
with metadata `user_id`/`role`/`timestamp`.  `now` stands for
`datetime.now().isoformat()`.  Embedder failure propagates: nothing in the
function catches it. -/
def add_memory (env : Env) (store : List MemRecord)
    (user_id text role now : String) : Except String (List MemRecord) :=
  match env.encode text with
  | Except.error e => Except.error e
  | Except.ok embedding =>
    Except.ok (upsert store
      { id := memId env user_id role text, document := text,
        embedding := embedding,
        metadata := { user_id := user_id, role := role, timestamp := now } })

/-- The Chroma memory query `memory_collection.query(query_texts=[query],
n_results=top_k, where=...)` of `recall_memory`: the `where` clause
restricts the candidate pool to the records of this user before the
nearest-neighbour selection. -/
def recallHits (env : Env) (store : List MemRecord)
    (user_id query : String) (top_k : Nat) : Except String (List MemRecord) :=
  env.memSelect (store.filter (fun r => r.metadata.user_id == user_id)) query top_k

/-- Source `recall_memory(user_id, query, top_k=3)`: join the returned
documents with newlines; any exception is caught and becomes `""`. -/
def recall_memory (env : Env) (store : List MemRecord)
    (user_id query : String) (top_k : Nat := 3) : String :=
  match recallHits env store user_id query top_k with
  | Except.ok hits => String.intercalate "\n" (hits.map (fun r => r.document))
  | Except.error _ => ""

-- -----------------------------
-- SMART SEARCH (agent.py)
-- -----------------------------

/-- The `for i, doc in enumerate(docs)` loop of `search_docs`: each
iteration computes `source = metadatas[i].get("source", "unknown") if
metadatas else "unknown"` (the indexing may raise `IndexError`) and appends
`f"[Source: {source}]\n{doc}"`. -/
def formatBlocks (metadatas : List DocMeta) :
    List String → Nat → Except String (List String)
  | [], _ => Except.ok []
  | doc :: rest, i =>
    match (if metadatas.isEmpty then Except.ok "unknown"
           else
             match pyIndex metadatas i with
             | Except.error e => Except.error e
             | Except.ok md => Except.ok (dictGet md "source" "unknown")) with
    | Except.error e => Except.error e
    | Except.ok source =>
      match formatBlocks metadatas rest (i + 1) with
      | Except.error e => Except.error e
      | Except.ok blocks =>
        Except.ok (("[Source: " ++ source ++ "]\n" ++ doc) :: blocks)

/-- The body of the `try` block of `search_docs`:
`results["documents"][0]` (the key may be missing and the outer list may be
empty), `results.get("metadatas", [[]])[0]`, the formatting loop, and
`"\n\n".join(context_blocks)`. -/
def searchDocsE (env : Env) (query_text : String) : Except String String :=
  match env.staticQuery query_text MAX_CONTEXT_DOCS with
  | Except.error e => Except.error e
  | Except.ok results =>
    match results.documents with
    | none => Except.error "KeyError: documents"
    | some docsOuter =>
      match pyIndex docsOuter 0 with
      | Except.error e => Except.error e
      | Except.ok docs =>
        match pyIndex (results.metadatas.getD [[]]) 0 with
        | Except.error e => Except.error e
        | Except.ok metadatas =>
          match formatBlocks metadatas docs 0 with
          | Except.error e => Except.error e
          | Except.ok blocks => Except.ok (String.intercalate "\n\n" blocks)

/-- Source `search_docs(query_text)`: semantic search on the static KB; any
exception is caught and becomes the `[ERROR]` marker string. -/
def search_docs (env : Env) (query_text : String) : String :=
  match searchDocsE env query_text with
  | Except.ok s => s
  | Except.error e => "[ERROR] search_docs failed: " ++ e

-- -----------------------------
-- QUERY REPHRASING (agent.py)
-- -----------------------------

/-- Source `rephrase_query(prompt)`, instrumented with the number of
generation requests it issues (second component).  Fewer than 3 whitespace
tokens: return the prompt, no request.  Otherwise POST a rephrasing
instruction; on `res.ok` return the stripped `res.json()["response"]`; any
failure (transport error, bad status, bad JSON, missing key) falls back to
the original prompt via the bare `except` and the final `return prompt`. -/
def rephrase_query_impl (env : Env) (prompt : String) : String × Nat :=
  if (pySplit prompt).length < 3 then (prompt, 0)
  else
    match env.post ("Rephrase this for clarity: " ++ prompt) with
    | Except.ok res =>
      if res.ok then
        match res.responseField with
        | Except.ok r => (pyStrip r, 1)
        | Except.error _ => (prompt, 1)
      else (prompt, 1)
    | Except.error _ => (prompt, 1)

/-- Source `rephrase_query(prompt)`: the returned string. -/
def rephrase_query (env : Env) (prompt : String) : String :=
  (rephrase_query_impl env prompt).1

-- -----------------------------
-- QUERY OLLAMA (agent.py)
-- -----------------------------

/-- The f-string prompt template of `query_ollama`. -/
def ollamaPrompt (prompt context : String) : String :=
  "You are a DevOps expert assistant.\nUse the provided context (memory + docs) to give accurate, step-by-step answers.\nIf context is missing, answer with your own knowledge.\n\nContext:\n"
    ++ context ++ "\n\nUser question:\n" ++ prompt ++ "\n\nAnswer clearly:"

/-- The `for line in response.iter_lines(...)` accumulation of
`query_ollama`: skip empty lines, skip lines that fail `json.loads`, append
`data.get("response", "")` for the rest. -/
def accumulateTokens (env : Env) (lines : List String) : String :=
  lines.foldl
    (fun answer line =>
      if line = "" then answer
      else
        match env.jsonLoads line with
        | none => answer
        | some data => answer ++ dictGet data "response" "")
    ""

/-- Source `query_ollama(prompt, context)`: streaming POST; a non-200
status and a transport error are returned as `[ERROR]` strings, success
returns the stripped concatenation of the streamed `response` fragments. -/
def query_ollama (env : Env) (prompt : String) (context : String := "") : String :=
  match env.postStream
      { model := MODEL_NAME, prompt := ollamaPrompt prompt context, stream := true } with
  | Except.error e => "[ERROR] Ollama request failed: " ++ e
  | Except.ok response =>
    if response.status_code ≠ 200 then
      "[ERROR] Ollama returned " ++ toString response.status_code
    else pyStrip (accumulateTokens env response.lines)

-- -----------------------------
-- CONTEXT BUILDER (agent.py)
-- -----------------------------

/-- The list-comprehension formatter `f"User: {q}\nAgent: {a}"`. -/
def fmtTurn (t : String × String) : String :=
  "User: " ++ t.1 ++ "\nAgent: " ++ t.2

/-- The `short_term` local of `build_context`: `"\n".join(... for q, a in
conversation_history[-MEMORY_SIZE:])`.  Python `l[-k:]` for `k > 0` is the
last `min k (length l)` elements, here `drop (length - MEMORY_SIZE)`. -/
def shortTermSection (conversation_history : List (String × String)) : String :=
  String.intercalate "\n"
    ((conversation_history.drop (conversation_history.length - MEMORY_SIZE)).map fmtTurn)

/-- Source `build_context(user_id, user_query)`: merge short-term history,
semantic memory recall (the `long_term` local) and doc search (the `docs`
local) into the fixed three-section block. -/
def build_context (env : Env) (conversation_history : List (String × String))
    (store : List MemRecord) (user_id user_query : String) : String :=
  "Short-term:\n" ++ shortTermSection conversation_history
    ++ "\n\nLong-term memory:\n" ++ recall_memory env store user_id user_query 3
    ++ "\n\nDocs:\n" ++ search_docs env user_query

-- -----------------------------
-- MAIN LOOP (agent.py)
-- -----------------------------

/-- The process-local state the main loop threads between turns. -/
structure LoopState where
  history : List (String × String)
  memStore : List MemRecord
  deriving Repr

/-- The `refined_query` local of the loop body: `rephrase_query(query)`. -/
def loopRefined (env : Env) (query : String) : String :=
  rephrase_query env query

/-- The `context` local of the loop body:
`build_context(USER_ID, refined_query)`. -/
def loopContext (env : Env) (st : LoopState) (query : String) : String :=
  build_context env st.history st.memStore USER_ID (loopRefined env query)

/-- The `answer` local of the loop body:
`query_ollama(refined_query, context)`. -/
def loopAnswer (env : Env) (st : LoopState) (query : String) : String :=
  query_ollama env (loopRefined env query) (loopContext env st query)

/-- One iteration of the `while True` loop after the exit/empty checks, for
a non-empty stripped `query`: rephrase, build context, generate, append
`(query, answer)` to `conversation_history`, then store the query and the
answer into persistent memory.  `t1` and `t2` are the two
`datetime.now().isoformat()` timestamps; an uncaught `add_memory` failure
crashes the loop, which the `Except` propagation reflects. -/
def loop_step (env : Env) (st : LoopState) (query t1 t2 : String) :
    Except String LoopState :=
  match add_memory env st.memStore USER_ID query "user" t1 with
  | Except.error e => Except.error e
  | Except.ok mem1 =>
    match add_memory env mem1 USER_ID (loopAnswer env st query) "agent" t2 with
    | Except.error e => Except.error e
    | Except.ok mem2 =>
      Except.ok { history := st.history ++ [(query, loopAnswer env st query)],
                  memStore := mem2 }

-- -----------------------------
-- DERIVED DEFINITIONS
-- -----------------------------

/-- The block formatter of `search_docs` as a function of one
`(doc, metadata)` pair, used to state the formatting property. -/
def fmtBlock (p : String × DocMeta) : String :=
  "[Source: " ++ dictGet p.2 "source" "unknown" ++ "]\n" ++ p.1

/-- Number of logical records of the store carrying a given id. -/
def countId (store : List MemRecord) (i : String) : Nat :=
  (store.filter (fun r => r.id == i)).length

/-- The record `add_memory` writes for the query of a turn. -/
def queryRec (env : Env) (query t1 : String) (embq : List Int) : MemRecord :=
  { id := memId env USER_ID "user" query, document := query, embedding := embq,
    metadata := { user_id := USER_ID, role := "user", timestamp := t1 } }

/-- The record `add_memory` writes for the answer of a turn. -/
def answerRec (env : Env) (st : LoopState) (query t2 : String)
    (emba : List Int) : MemRecord :=
  { id := memId env USER_ID "agent" (loopAnswer env st query),
    document := loopAnswer env st query, embedding := emba,
    metadata := { user_id := USER_ID, role := "agent", timestamp := t2 } }

-- -----------------------------
-- CONCRETE ENVIRONMENTS (for witnesses)
-- -----------------------------

/-- An environment in which every external call succeeds, used to run the
embedded functions on concrete inputs. -/
def okEnv : Env where
  md5Hex := fun s => s
  encode := fun _ => Except.ok [0]
  memSelect := fun pool _ _ => Except.ok pool
  memSelect_sub := by
    intro pool q n hits h r hr
    injection h with h
    rw [← h] at hr
    exact hr
  staticQuery := fun _ _ =>
    Except.ok { documents := some [[]], metadatas := some [[]] }
  post := fun _ => Except.ok { ok := true, responseField := Except.ok "rephrased" }
  postStream := fun _ => Except.ok { status_code := 200, lines := [] }
  jsonLoads := fun _ => none

/-- An environment in which every external query and HTTP call raises while
the embedder still succeeds, used to exercise the error paths. -/
def errEnv : Env where
  md5Hex := fun s => s
  encode := fun _ => Except.ok [0]
  memSelect := fun _ _ _ => Except.error "memory query failed"
  memSelect_sub := by intro pool q n hits h; exact Except.noConfusion h
  staticQuery := fun _ _ => Except.error "static query failed"
  post := fun _ => Except.error "connection refused"
  postStream := fun _ => Except.error "connection refused"
  jsonLoads := fun _ => none

/-- An environment whose static collection returns the two-chunk example of
the document-formatting property. -/
def exEnv : Env where
  md5Hex := fun s => s
  encode := fun _ => Except.ok [0]
  memSelect := fun pool _ _ => Except.ok pool
  memSelect_sub := by
    intro pool q n hits h r hr
    injection h with h
    rw [← h] at hr
    exact hr
  staticQuery := fun _ _ =>
    Except.ok { documents := some [["doc1", "doc2"]],
                metadatas := some [[[("source", "a.md")], []]] }
  post := fun _ => Except.ok { ok := true, responseField := Except.ok "rephrased" }
  postStream := fun _ => Except.ok { status_code := 200, lines := [] }
  jsonLoads := fun _ => none

/-- An environment whose static collection reports two chunks but only one
metadata entry, so that the formatting loop itself raises. -/
def badEnv : Env where
  md5Hex := fun s => s
  encode := fun _ => Except.ok [0]
  memSelect := fun pool _ _ => Except.ok pool
  memSelect_sub := by
    intro pool q n hits h r hr
    injection h with h
    rw [← h] at hr
    exact hr
  staticQuery := fun _ _ =>
    Except.ok { documents := some [["doc1", "doc2"]], metadatas := some [[[]]] }
  post := fun _ => Except.ok { ok := true, responseField := Except.ok "rephrased" }
  postStream := fun _ => Except.ok { status_code := 200, lines := [] }
  jsonLoads := fun _ => none

/-- A sample memory record of user `alice`. -/
def rAlice : MemRecord :=
  { id := "alice_user_deadbeef", document := "alice asked about nginx",
    embedding := [0], metadata := { user_id := "alice", role := "user", timestamp := "t" } }

/-- A sample memory record of user `bob`. -/
def rBob : MemRecord :=
  { id := "bob_user_cafebabe", document := "bob asked about docker",
    embedding := [0], metadata := { user_id := "bob", role := "user", timestamp := "t" } }

-- -----------------------------
-- UPSERT LEMMAS
-- -----------------------------

lemma map_id_upsert_of_any (store : List MemRecord) (r : MemRecord)
    (h : store.any (fun s => s.id == r.id) = true) :
    (upsert store r).map MemRecord.id = store.map MemRecord.id := by
  unfold upsert
  rw [if_pos h, List.map_map]
  refine List.map_congr_left ?_
  intro s _
  by_cases hs : s.id == r.id
  · simp only [Function.comp_apply, if_pos hs]
    exact (eq_of_beq hs).symm
  · simp only [Function.comp_apply, if_neg hs]

lemma map_id_upsert_of_not_any (store : List MemRecord) (r : MemRecord)
    (h : store.any (fun s => s.id == r.id) = false) :
    (upsert store r).map MemRecord.id = store.map MemRecord.id ++ [r.id] := by
  unfold upsert
  rw [if_neg (by simp [h]), List.map_append]
  rfl

lemma nodup_id_upsert (store : List MemRecord) (r : MemRecord)
    (h : (store.map MemRecord.id).Nodup) :
    ((upsert store r).map MemRecord.id).Nodup := by
  by_cases hany : store.any (fun s => s.id == r.id) = true
  · rw [map_id_upsert_of_any store r hany]; exact h
  · rw [map_id_upsert_of_not_any store r (by simpa using hany)]
    rw [List.nodup_append]
    refine ⟨h, List.nodup_singleton _, ?_⟩
    intro a ha hb
    rw [List.mem_singleton] at hb
    subst hb
    rw [List.mem_map] at ha
    obtain ⟨s, hs, hsid⟩ := ha
    exact hany (List.any_eq_true.mpr ⟨s, hs, by simp [hsid]⟩)

lemma countId_eq_count (store : List MemRecord) (i : String) :
    countId store i = (store.map MemRecord.id).count i := by
  unfold countId
  rw [List.count_eq_countP, List.countP_map, List.countP_eq_length_filter]
  rfl

lemma countId_upsert_self (store : List MemRecord) (r : MemRecord)
    (h : (store.map MemRecord.id).Nodup) :
    countId (upsert store r) r.id = 1 := by
  by_cases hany : store.any (fun s => s.id == r.id) = true
  · rw [countId_eq_count, map_id_upsert_of_any store r hany]
    obtain ⟨s, hs, hsid⟩ := List.any_eq_true.mp hany
    have hmem : r.id ∈ store.map MemRecord.id := by
      rw [List.mem_map]
      exact ⟨s, hs, eq_of_beq hsid⟩
    have h1 : (store.map MemRecord.id).count r.id ≤ 1 :=
      List.nodup_iff_count_le_one.mp h r.id
    have h2 : 0 < (store.map MemRecord.id).count r.id :=
      List.count_pos_iff.mpr hmem
    omega
  · rw [countId_eq_count, map_id_upsert_of_not_any store r (by simpa using hany)]
    rw [List.count_append]
    have hnot : r.id ∉ store.map MemRecord.id := by
      intro hmem
      rw [List.mem_map] at hmem
      obtain ⟨s, hs, hsid⟩ := hmem
      exact hany (List.any_eq_true.mpr ⟨s, hs, by simp [hsid]⟩)
    rw [List.count_eq_zero.mpr hnot]
    simp

lemma mem_upsert_self (store : List MemRecord) (r : MemRecord) :
    r ∈ upsert store r := by
  unfold upsert
  by_cases hany : store.any (fun s => s.id == r.id) = true
  · rw [if_pos hany]
    obtain ⟨s, hs, hsid⟩ := List.any_eq_true.mp hany
    rw [List.mem_map]
    exact ⟨s, hs, by rw [if_pos hsid]⟩
  · rw [if_neg hany]
    exact List.mem_append_right _ (List.mem_singleton_self r)

lemma mem_upsert_of_ne (store : List MemRecord) (r x : MemRecord)
    (hx : x ∈ store) (hne : x.id ≠ r.id) : x ∈ upsert store r := by
  unfold upsert
  by_cases hany : store.any (fun s => s.id == r.id) = true
  · rw [if_pos hany, List.mem_map]
    exact ⟨x, hx, by rw [if_neg (by simpa using hne)]⟩
  · rw [if_neg hany]
    exact List.mem_append_left _ hx

-- -----------------------------
-- EQUATION AND DISTINCTNESS LEMMAS
-- -----------------------------

lemma add_memory_eq (env : Env) (u text : String) (emb : List Int)
    (h : env.encode text = Except.ok emb) :
    ∀ store role now, add_memory env store u text role now =
      Except.ok (upsert store
        { id := memId env u role text, document := text, embedding := emb,
          metadata := { user_id := u, role := role, timestamp := now } }) := by
  intro store role now
  unfold add_memory
  rw [h]

/-- The record written for the query of a turn and the record written for
the answer can never collide: their ids differ at the role segment. -/
lemma memId_user_ne_agent (env : Env) (q a : String) :
    memId env USER_ID "user" q ≠ memId env USER_ID "agent" a := by
  intro h
  have h' : "onkar_user_" ++ pyTake (hash_text env q) 8
      = "onkar_agent_" ++ pyTake (hash_text env a) 8 := h
  have hd : "onkar_user_".data ++ (pyTake (hash_text env q) 8).data
      = "onkar_agent_".data ++ (pyTake (hash_text env a) 8).data := by
    have h2 := congrArg String.data h'
    rwa [String.data_append, String.data_append] at h2
  have h6 : (some 'u' : Option Char) = some 'a' :=
    congrArg (fun l => List.get? l 6) hd
  exact absurd h6 (by decide)

lemma loop_step_eq (env : Env) (st : LoopState) (query t1 t2 : String)
    (embq emba : List Int)
    (hq : env.encode query = Except.ok embq)
    (ha : env.encode (loopAnswer env st query) = Except.ok emba) :
    loop_step env st query t1 t2 = Except.ok
      { history := st.history ++ [(query, loopAnswer env st query)],
        memStore := upsert (upsert st.memStore (queryRec env query t1 embq))
          (answerRec env st query t2 emba) } := by
  unfold loop_step queryRec answerRec
  simp only [add_memory_eq env USER_ID query embq hq,
    add_memory_eq env USER_ID (loopAnswer env st query) emba ha]

-- -----------------------------
-- SECTION AND FORMATTING LEMMAS
-- -----------------------------

lemma shortTermSection_last (pre post : List (String × String))
    (h : post.length = MEMORY_SIZE) :
    shortTermSection (pre ++ post) = String.intercalate "\n" (post.map fmtTurn) := by
  unfold shortTermSection
  congr 2
  rw [List.length_append, h, Nat.add_sub_cancel]
  exact List.drop_left pre post

lemma shortTermSection_all (hist : List (String × String))
    (h : hist.length ≤ MEMORY_SIZE) :
    shortTermSection hist = String.intercalate "\n" (hist.map fmtTurn) := by
  unfold shortTermSection
  rw [Nat.sub_eq_zero_of_le h, List.drop_zero]

lemma formatBlocks_zip (metas : List DocMeta) (docs : List String) :
    ∀ i : Nat, i + docs.length ≤ metas.length →
      formatBlocks metas docs i =
        Except.ok ((docs.zip (metas.drop i)).map fmtBlock) := by
  induction docs with
  | nil => intro i _; simp [formatBlocks]
  | cons doc rest ih =>
    intro i h
    have hi : i < metas.length := by
      simp only [List.length_cons] at h
      omega
    have hne : metas.isEmpty = false := by
      cases metas
      · simp at hi
      · rfl
    have hidx : pyIndex metas i = Except.ok (metas.get ⟨i, hi⟩) := by
      unfold pyIndex
      rw [List.get?_eq_get hi]
    have hrest := ih (i + 1) (by simp only [List.length_cons] at h; omega)
    have hdrop : metas.drop i = metas.get ⟨i, hi⟩ :: metas.drop (i + 1) := by
      rw [List.drop_eq_getElem_cons hi]
      rfl
    simp only [formatBlocks, hne, Bool.false_eq_true, if_false, hidx, hrest,
      hdrop, List.zip_cons_cons, List.map_cons, fmtBlock]

-- -----------------------------
-- CLAIM THEOREMS
-- -----------------------------

/-- C1: `add_memory` derives the record id as
`user_id ++ "_" ++ role ++ "_" ++ first 8 hex digits of the text digest`;
since the id depends only on the `(user_id, role, text)` triple, storing the
same triple twice upserts the same id both times and leaves exactly one
logical record with that id in the memory store. -/
theorem store_identity_determinism
    (env : Env) (store : List MemRecord) (u text role t1 t2 : String)
    (emb : List Int)
    (henc : env.encode text = Except.ok emb)
    (hids : (store.map MemRecord.id).Nodup) :
    ∃ s1 s2 r1 r2,
      add_memory env store u text role t1 = Except.ok s1 ∧
      add_memory env s1 u text role t2 = Except.ok s2 ∧
      s1 = upsert store r1 ∧ s2 = upsert s1 r2 ∧
      r1.id = u ++ "_" ++ role ++ "_" ++ pyTake (env.md5Hex text) 8 ∧
      r2.id = r1.id ∧
      countId s2 r1.id = 1 := by
  have e1 := add_memory_eq env u text emb henc store role t1
  have e2 := add_memory_eq env u text emb henc
    (upsert store
      { id := memId env u role text, document := text, embedding := emb,
        metadata := { user_id := u, role := role, timestamp := t1 } }) role t2
  refine ⟨_, _,
    { id := memId env u role text, document := text, embedding := emb,
      metadata := { user_id := u, role := role, timestamp := t1 } },
    { id := memId env u role text, document := text, embedding := emb,
      metadata := { user_id := u, role := role, timestamp := t2 } },
    e1, e2, rfl, rfl, rfl, rfl, ?_⟩
  exact countId_upsert_self _ _ (nodup_id_upsert store _ hids)

/-- Witness for C1 at a concrete input: storing `"hello"` twice for user
`"u"` in an initially empty store. -/
theorem store_identity_determinism_witness :
    ∃ s1 s2 r1 r2,
      add_memory okEnv [] "u" "hello" "user" "t1" = Except.ok s1 ∧
      add_memory okEnv s1 "u" "hello" "user" "t2" = Except.ok s2 ∧
      s1 = upsert [] r1 ∧ s2 = upsert s1 r2 ∧
      r1.id = "u" ++ "_" ++ "user" ++ "_" ++ pyTake (okEnv.md5Hex "hello") 8 ∧
      r2.id = r1.id ∧
      countId s2 r1.id = 1 :=
  store_identity_determinism okEnv [] "u" "hello" "user" "t1" "t2" [0] rfl
    (by simp)

/-- C2: a successful `recall_memory` for user `A` returns exactly the texts
of the selected records, every selected record belongs to the store and
carries `user_id = A`, and no record carrying another user id is ever among
the results — the `where` filter isolates users. -/
theorem recall_memory_user_isolation
    (env : Env) (store : List MemRecord) (A query : String) (top_k : Nat)
    (hits : List MemRecord)
    (h : recallHits env store A query top_k = Except.ok hits) :
    recall_memory env store A query top_k
        = String.intercalate "\n" (hits.map (fun r => r.document)) ∧
    (∀ r ∈ hits, r ∈ store ∧ r.metadata.user_id = A) ∧
    (∀ B rB, B ≠ A → rB.metadata.user_id = B → rB ∉ hits) := by
  have hsub := env.memSelect_sub _ query top_k hits h
  refine ⟨by unfold recall_memory; rw [h], ?_, ?_⟩
  · intro r hr
    have hmem := hsub r hr
    rw [List.mem_filter] at hmem
    exact ⟨hmem.1, eq_of_beq hmem.2⟩
  · intro B rB hBA huid hmem
    have hrB := hsub rB hmem
    rw [List.mem_filter] at hrB
    have hA : rB.metadata.user_id = A := eq_of_beq hrB.2
    rw [huid] at hA
    exact hBA hA

/-- Witness for C2: with records of `alice` and `bob` in the store, recall
for `alice` selects only the `alice` record. -/
theorem recall_memory_user_isolation_witness :
    recall_memory okEnv [rAlice, rBob] "alice" "q" 3
        = String.intercalate "\n" ([rAlice].map (fun r => r.document)) ∧
    (∀ r ∈ [rAlice], r ∈ [rAlice, rBob] ∧ r.metadata.user_id = "alice") ∧
    (∀ B rB, B ≠ "alice" → rB.metadata.user_id = B → rB ∉ [rAlice]) :=
  recall_memory_user_isolation okEnv [rAlice, rBob] "alice" "q" 3 [rAlice] rfl

/-- C5: when the underlying memory-store query raises, `recall_memory`
returns the empty string (the exception is caught, never propagated). -/
theorem recall_memory_failure_empty
    (env : Env) (store : List MemRecord) (user_id query : String)
    (top_k : Nat) (e : String)
    (h : recallHits env store user_id query top_k = Except.error e) :
    recall_memory env store user_id query top_k = "" := by
  unfold recall_memory
  rw [h]

/-- Witness for C5: in the failing environment, recall yields `""`. -/
theorem recall_memory_failure_empty_witness :
    recall_memory errEnv [rAlice] "onkar" "how" 3 = "" :=
  recall_memory_failure_empty errEnv [rAlice] "onkar" "how" 3
    "memory query failed" rfl

/-- C8: a prompt with fewer than 3 whitespace-delimited tokens is returned
unchanged by `rephrase_query`, and zero generation requests are issued. -/
theorem rephrase_short_circuit (env : Env) (prompt : String)
    (h : (pySplit prompt).length < 3) :
    rephrase_query env prompt = prompt ∧
    rephrase_query_impl env prompt = (prompt, 0) := by
  have himpl : rephrase_query_impl env prompt = (prompt, 0) := by
    unfold rephrase_query_impl
    rw [if_pos h]
  exact ⟨by unfold rephrase_query; rw [himpl], himpl⟩

/-- Witness for C8: `rephrase_query("fix it")` — even in an environment
whose generation service would answer `"rephrased"`. -/
theorem rephrase_short_circuit_witness :
    rephrase_query okEnv "fix it" = "fix it" ∧
    rephrase_query_impl okEnv "fix it" = ("fix it", 0) :=
  rephrase_short_circuit okEnv "fix it" (by decide)

/-- C10: `add_memory` performs no validation of its inputs: for every text
(the empty string included) and every role string, a successful embedding
leads straight to the upsert of the corresponding record. -/
theorem add_memory_no_validation
    (env : Env) (store : List MemRecord) (u text role now : String)
    (emb : List Int)
    (henc : env.encode text = Except.ok emb) :
    ∃ r, add_memory env store u text role now = Except.ok (upsert store r) ∧
      r.document = text ∧ r.metadata.role = role ∧ r.metadata.user_id = u ∧
      r.embedding = emb :=
  ⟨_, add_memory_eq env u text emb henc store role now, rfl, rfl, rfl, rfl⟩

/-- Witness for C10: the empty text and a role outside `{user, agent}` are
stored without any validation error. -/
theorem add_memory_no_validation_witness :
    ∃ r, add_memory okEnv [] "u" "" "supervisor" "t" = Except.ok (upsert [] r) ∧
      r.document = "" ∧ r.metadata.role = "supervisor" ∧
      r.metadata.user_id = "u" ∧ r.embedding = [0] :=
  add_memory_no_validation okEnv [] "u" "" "supervisor" "t" [0] rfl

/-- C3: `build_context` returns one string with the three labelled sections
in fixed order (Short-term, Long-term memory, Docs); the short-term section
holds exactly the last `MEMORY_SIZE` turns in chronological order, and all
turns when fewer than `MEMORY_SIZE` exist. -/
theorem build_context_sections
    (env : Env) (store : List MemRecord) (user_id user_query : String) :
    (∀ pre post : List (String × String), post.length = MEMORY_SIZE →
      build_context env (pre ++ post) store user_id user_query =
        "Short-term:\n" ++ String.intercalate "\n" (post.map fmtTurn)
          ++ "\n\nLong-term memory:\n" ++ recall_memory env store user_id user_query 3
          ++ "\n\nDocs:\n" ++ search_docs env user_query) ∧
    (∀ hist : List (String × String), hist.length ≤ MEMORY_SIZE →
      build_context env hist store user_id user_query =
        "Short-term:\n" ++ String.intercalate "\n" (hist.map fmtTurn)
          ++ "\n\nLong-term memory:\n" ++ recall_memory env store user_id user_query 3
          ++ "\n\nDocs:\n" ++ search_docs env user_query) := by
  constructor
  · intro pre post h
    unfold build_context
    rw [shortTermSection_last pre post h]
  · intro hist h
    unfold build_context
    rw [shortTermSection_all hist h]

/-- Witness for C3: four turns keep exactly the last three, one turn is
kept whole, both fully evaluated. -/
theorem build_context_sections_witness :
    build_context okEnv [("q0", "a0"), ("q1", "a1"), ("q2", "a2"), ("q3", "a3")]
        [] "u" "hi"
      = "Short-term:\nUser: q1\nAgent: a1\nUser: q2\nAgent: a2\nUser: q3\nAgent: a3\n\nLong-term memory:\n\n\nDocs:\n" ∧
    build_context okEnv [("q0", "a0")] [] "u" "hi"
      = "Short-term:\nUser: q0\nAgent: a0\n\nLong-term memory:\n\n\nDocs:\n" :=
  ⟨((build_context_sections okEnv [] "u" "hi").1 [("q0", "a0")]
      [("q1", "a1"), ("q2", "a2"), ("q3", "a3")] rfl).trans rfl,
   ((build_context_sections okEnv [] "u" "hi").2 [("q0", "a0")]
      (by decide)).trans rfl⟩

/-- C4: on the success path, `search_docs` renders the retrieved chunks in
the rank order the store returned them, each prefixed with its
`[Source: ...]` provenance (defaulting to `unknown` when the metadata dict
lacks the field), joined by blank lines. -/
theorem search_docs_success_format
    (env : Env) (q : String) (res : StaticQueryResult)
    (docs : List String) (metas : List DocMeta)
    (hq : env.staticQuery q MAX_CONTEXT_DOCS = Except.ok res)
    (hdocs : res.documents = some [docs])
    (hmetas : res.metadatas = some [metas])
    (hlen : docs.length ≤ metas.length) :
    search_docs env q = String.intercalate "\n\n" ((docs.zip metas).map fmtBlock) := by
  have hfmt := formatBlocks_zip metas docs 0 (by omega)
  rw [List.drop_zero] at hfmt
  simp only [search_docs, searchDocsE, hq, hdocs, hmetas, Option.getD_some,
    pyIndex, List.get?, hfmt]

/-- Witness for C4: the two-chunk example, one chunk with a `source` field
and one without, produces exactly the specified string. -/
theorem search_docs_success_format_witness :
    search_docs exEnv "x" = "[Source: a.md]\ndoc1\n\n[Source: unknown]\ndoc2" :=
  (search_docs_success_format exEnv "x"
    { documents := some [["doc1", "doc2"]],
      metadatas := some [[[("source", "a.md")], []]] }
    ["doc1", "doc2"] [[("source", "a.md")], []] rfl rfl rfl
    (by decide)).trans rfl

/-- C7: a failure of the static-KB query, and equally a failure inside the
formatting of its results, is converted into the `[ERROR] search_docs
failed: ...` marker returned as the result value — never a thrown error. -/
theorem search_docs_failure_contained (env : Env) (q e : String) :
    (env.staticQuery q MAX_CONTEXT_DOCS = Except.error e →
      search_docs env q = "[ERROR] search_docs failed: " ++ e) ∧
    (∀ res docs metas, env.staticQuery q MAX_CONTEXT_DOCS = Except.ok res →
      res.documents = some [docs] → res.metadatas = some [metas] →
      formatBlocks metas docs 0 = Except.error e →
      search_docs env q = "[ERROR] search_docs failed: " ++ e) := by
  constructor
  · intro h
    unfold search_docs searchDocsE
    rw [h]
  · intro res docs metas hq hdocs hmetas hfmt
    simp only [search_docs, searchDocsE, hq, hdocs, hmetas, Option.getD_some,
      pyIndex, List.get?, hfmt]

/-- Witness for C7: a raising static query, and separately a metadata list
shorter than the document list, both end in the marker string. -/
theorem search_docs_failure_contained_witness :
    search_docs errEnv "x" = "[ERROR] search_docs failed: static query failed" ∧
    search_docs badEnv "x"
      = "[ERROR] search_docs failed: IndexError: list index out of range" :=
  ⟨(search_docs_failure_contained errEnv "x" "static query failed").1 rfl,
   (search_docs_failure_contained badEnv "x"
      "IndexError: list index out of range").2
    { documents := some [["doc1", "doc2"]], metadatas := some [[[]]] }
    ["doc1", "doc2"] [[]] rfl rfl rfl rfl⟩

/-- C6: when the generation call fails (transport error or non-200 status),
the answer of the turn is a visible `[ERROR]` string rather than an
exception, and the loop still appends `(query, answer)` to the history and
stores both the query and that error answer into persistent memory. -/
theorem generation_failure_turn_recorded
    (env : Env) (st : LoopState) (query t1 t2 : String) (embq emba : List Int)
    (hq : env.encode query = Except.ok embq)
    (ha : env.encode (loopAnswer env st query) = Except.ok emba)
    (hfail :
      (∃ e, env.postStream
          { model := MODEL_NAME,
            prompt := ollamaPrompt (loopRefined env query) (loopContext env st query),
            stream := true } = Except.error e) ∨
      (∃ resp, env.postStream
          { model := MODEL_NAME,
            prompt := ollamaPrompt (loopRefined env query) (loopContext env st query),
            stream := true } = Except.ok resp ∧ resp.status_code ≠ 200)) :
    (∃ rest, loopAnswer env st query = "[ERROR]" ++ rest) ∧
    ∃ st', loop_step env st query t1 t2 = Except.ok st' ∧
      st'.history = st.history ++ [(query, loopAnswer env st query)] ∧
      (∃ r ∈ st'.memStore, r.document = query) ∧
      (∃ r ∈ st'.memStore, r.document = loopAnswer env st query) := by
  constructor
  · unfold loopAnswer query_ollama
    rcases hfail with ⟨e, he⟩ | ⟨resp, hr, hs⟩
    · rw [he]
      refine ⟨" Ollama request failed: " ++ e, ?_⟩
      show "[ERROR] Ollama request failed: " ++ e
          = "[ERROR]" ++ (" Ollama request failed: " ++ e)
      rw [← String.append_assoc]
      rfl
    · simp only [hr, if_pos hs, ne_eq]
      refine ⟨" Ollama returned " ++ toString resp.status_code, ?_⟩
      show "[ERROR] Ollama returned " ++ toString resp.status_code
          = "[ERROR]" ++ (" Ollama returned " ++ toString resp.status_code)
      rw [← String.append_assoc]
      rfl
  · refine ⟨_, loop_step_eq env st query t1 t2 embq emba hq ha, rfl, ?_, ?_⟩
    · exact ⟨queryRec env query t1 embq,
        mem_upsert_of_ne _ _ _ (mem_upsert_self _ _)
          (memId_user_ne_agent env query (loopAnswer env st query)), rfl⟩
    · exact ⟨answerRec env st query t2 emba, mem_upsert_self _ _, rfl⟩

/-- Witness for C6: with the generation backend down, the turn for query
`"hi"` is still recorded in history and in memory, with an `[ERROR]`
answer. -/
theorem generation_failure_turn_recorded_witness :
    (∃ rest, loopAnswer errEnv ⟨[], []⟩ "hi" = "[ERROR]" ++ rest) ∧
    ∃ st', loop_step errEnv ⟨[], []⟩ "hi" "t1" "t2" = Except.ok st' ∧
      st'.history = [] ++ [("hi", loopAnswer errEnv ⟨[], []⟩ "hi")] ∧
      (∃ r ∈ st'.memStore, r.document = "hi") ∧
      (∃ r ∈ st'.memStore, r.document = loopAnswer errEnv ⟨[], []⟩ "hi") :=
  generation_failure_turn_recorded errEnv ⟨[], []⟩ "hi" "t1" "t2" [0] [0]
    rfl rfl (Or.inl ⟨"connection refused", rfl⟩)

/-- C9: each turn appends the original input text (not the rephrased query)
to the history and stores the original input and the answer into persistent
memory; the rephrased query is used only for the context build and the
generation prompt, which the definition of the answer records. -/
theorem loop_records_original_query
    (env : Env) (st : LoopState) (query t1 t2 : String) (embq emba : List Int)
    (hq : env.encode query = Except.ok embq)
    (ha : env.encode (loopAnswer env st query) = Except.ok emba) :
    ∃ st', loop_step env st query t1 t2 = Except.ok st' ∧
      st'.history = st.history ++ [(query, loopAnswer env st query)] ∧
      (∃ r ∈ st'.memStore, r.document = query ∧ r.metadata.role = "user" ∧
        r.metadata.user_id = USER_ID) ∧
      (∃ r ∈ st'.memStore, r.document = loopAnswer env st query ∧
        r.metadata.role = "agent" ∧ r.metadata.user_id = USER_ID) ∧
      loopAnswer env st query = query_ollama env (rephrase_query env query)
        (build_context env st.history st.memStore USER_ID
          (rephrase_query env query)) := by
  refine ⟨_, loop_step_eq env st query t1 t2 embq emba hq ha, rfl, ?_, ?_, rfl⟩
  · exact ⟨queryRec env query t1 embq,
      mem_upsert_of_ne _ _ _ (mem_upsert_self _ _)
        (memId_user_ne_agent env query (loopAnswer env st query)),
      rfl, rfl, rfl⟩
  · exact ⟨answerRec env st query t2 emba, mem_upsert_self _ _, rfl, rfl, rfl⟩

/-- Witness for C9: a four-token query that the environment rephrases to a
different string is still stored verbatim. -/
theorem loop_records_original_query_witness :
    rephrase_query okEnv "how to restart nginx" = "rephrased" ∧
    ∃ st', loop_step okEnv ⟨[], []⟩ "how to restart nginx" "t1" "t2"
        = Except.ok st' ∧
      st'.history
        = [] ++ [("how to restart nginx",
            loopAnswer okEnv ⟨[], []⟩ "how to restart nginx")] ∧
      (∃ r ∈ st'.memStore, r.document = "how to restart nginx" ∧
        r.metadata.role = "user" ∧ r.metadata.user_id = USER_ID) ∧
      (∃ r ∈ st'.memStore,
        r.document = loopAnswer okEnv ⟨[], []⟩ "how to restart nginx" ∧
        r.metadata.role = "agent" ∧ r.metadata.user_id = USER_ID) ∧
      loopAnswer okEnv ⟨[], []⟩ "how to restart nginx"
        = query_ollama okEnv (rephrase_query okEnv "how to restart nginx")
            (build_context okEnv [] [] USER_ID
              (rephrase_query okEnv "how to restart nginx")) :=
  ⟨by decide,
   loop_records_original_query okEnv ⟨[], []⟩ "how to restart nginx" "t1" "t2"
     [0] [0] rfl rfl⟩

end DevopsAgent
